import Mathlib

/-!
Shallow embedding of the greenhouse decision engine
(`src/controller.py`, thresholds from `src/config.py`).

Sensor values are rationals (the Python floats only ever meet decidable
comparisons here).  The wall clock is passed explicitly: `hour : ℕ` is the
local hour `datetime.now().hour`, and `now : ℚ` is the same instant as a
timestamp in seconds, used by the watering-cooldown arithmetic
`(datetime.now() - last_watering).total_seconds() / 60`.
-/

namespace Greenhouse

namespace cfg

def TEMP_DAY_MIN : ℚ := 18
def TEMP_DAY_MAX : ℚ := 25
def TEMP_NIGHT_MIN : ℚ := 15
def TEMP_NIGHT_MAX : ℚ := 18
def TEMP_CRITICAL_LOW : ℚ := 5
def TEMP_CRITICAL_HIGH : ℚ := 35

def HUMIDITY_MIN : ℚ := 60
def HUMIDITY_MAX : ℚ := 75
def HUMIDITY_CRITICAL_LOW : ℚ := 40
def HUMIDITY_CRITICAL_HIGH : ℚ := 90

def SOIL_MOISTURE_MIN : ℚ := 60
def SOIL_MOISTURE_MAX : ℚ := 80
def SOIL_MOISTURE_CRITICAL_LOW : ℚ := 40
def SOIL_MOISTURE_CRITICAL_HIGH : ℚ := 95

def LIGHT_INTENSITY_MIN : ℚ := 200
def LIGHT_INTENSITY_MAX : ℚ := 600

/-- `PH_MIN: float = 5.5` (written as `11/2` in lowest terms). -/
def PH_MIN : ℚ := mkRat 11 2
/-- `PH_MAX: float = 6.8` (written as `34/5` in lowest terms). -/
def PH_MAX : ℚ := mkRat 34 5

def DAY_START_HOUR : ℕ := 6
def DAY_END_HOUR : ℕ := 22

end cfg

inductive DeviceType
  | pump | fan | heater | cooler | light | humidifier | dehumidifier
  deriving DecidableEq, Repr

inductive DeviceStatus
  | on | off | error | unknown
  deriving DecidableEq, Repr

inductive AlertLevel
  | info | warning | critical
  deriving DecidableEq, Repr

inductive GrowthStage
  | seedling | vegetative | flowering | fruiting | dormant
  deriving DecidableEq, Repr

/-- `DeviceCommand` pydantic model (`src/models.py`): `duration` defaults to
`None` and is given only for watering commands. -/
structure DeviceCommand where
  device_type : DeviceType
  device_id : String := "main"
  action : DeviceStatus
  duration : Option ℤ := none
  deriving DecidableEq, Repr

/-- An alert dict as built by the analyzers: level, parameter name and the
offending value.  (The human-readable `message` string is presentation-only
and carries no further information.) -/
structure Alert where
  level : AlertLevel
  parameter : String
  value : ℚ
  deriving DecidableEq, Repr

/-- The per-quantity result dict
`{"commands": [], "alerts": [], "recommendations": [], "penalty": 0}`. -/
structure SubResult where
  commands : List DeviceCommand := []
  alerts : List Alert := []
  recommendations : List String := []
  penalty : ℚ := 0
  deriving DecidableEq, Repr

/-- Mutable fields of `GreenhouseController`. -/
structure ControllerState where
  current_stage : GrowthStage := GrowthStage.vegetative
  last_watering : Option ℚ := none
  watering_cooldown_minutes : ℚ := 30
  deriving DecidableEq, Repr

/-- The `readings` dict handed to `analyze_readings`; each key may be absent. -/
structure Reading where
  temperature : Option ℚ := none
  humidity : Option ℚ := none
  soil_moisture : Option ℚ := none
  light_level : Option ℚ := none
  ph_level : Option ℚ := none
  deriving DecidableEq, Repr

/-- The dict returned by `analyze_readings`. -/
structure AnalysisResult where
  commands : List DeviceCommand
  alerts : List Alert
  recommendations : List String
  health_score : ℚ
  is_daytime : Bool
  growth_stage : GrowthStage
  deriving DecidableEq, Repr

/-- `GreenhouseController.is_daytime`. -/
def is_daytime (hour : ℕ) : Bool :=
  decide (cfg.DAY_START_HOUR ≤ hour ∧ hour < cfg.DAY_END_HOUR)

/-- `GreenhouseController.get_target_temperature`. -/
def get_target_temperature (hour : ℕ) : ℚ × ℚ :=
  if is_daytime hour then (cfg.TEMP_DAY_MIN, cfg.TEMP_DAY_MAX)
  else (cfg.TEMP_NIGHT_MIN, cfg.TEMP_NIGHT_MAX)

/-- The watering-cooldown check inside `_analyze_soil_moisture`:
`can_water` is true when no watering is recorded, or when
`(now - last_watering).total_seconds() / 60 >= watering_cooldown_minutes`. -/
def can_water (last_watering : Option ℚ) (cooldown_minutes now : ℚ) : Bool :=
  match last_watering with
  | none => true
  | some t => decide ((now - t) / 60 ≥ cooldown_minutes)

/-- `GreenhouseController._analyze_temperature`. -/
def analyze_temperature (hour : ℕ) (temp : Option ℚ) : SubResult :=
  match temp with
  | none => { recommendations := ["⚠️ Нет данных о температуре"] }
  | some temp =>
    let target_min := (get_target_temperature hour).1
    let target_max := (get_target_temperature hour).2
    if temp < cfg.TEMP_CRITICAL_LOW then
      { alerts := [⟨AlertLevel.critical, "temperature", temp⟩],
        commands := [{ device_type := DeviceType.heater, action := DeviceStatus.on }],
        penalty := 40 }
    else if temp > cfg.TEMP_CRITICAL_HIGH then
      { alerts := [⟨AlertLevel.critical, "temperature", temp⟩],
        commands := [{ device_type := DeviceType.cooler, action := DeviceStatus.on },
                     { device_type := DeviceType.fan, action := DeviceStatus.on }],
        penalty := 40 }
    else if temp < target_min then
      { alerts := [⟨AlertLevel.warning, "temperature", temp⟩],
        commands := [{ device_type := DeviceType.heater, action := DeviceStatus.on }],
        recommendations :=
          ["Включить обогрев до достижения " ++ toString target_min ++ "°C"],
        penalty := 15 }
    else if temp > target_max then
      { alerts := [⟨AlertLevel.warning, "temperature", temp⟩],
        commands := [{ device_type := DeviceType.fan, action := DeviceStatus.on }],
        recommendations := ["Включить вентиляцию для охлаждения"],
        penalty := 10 }
    else
      { commands := [{ device_type := DeviceType.heater, action := DeviceStatus.off },
                     { device_type := DeviceType.cooler, action := DeviceStatus.off }] }

/-- `GreenhouseController._analyze_humidity`. -/
def analyze_humidity (humidity : Option ℚ) : SubResult :=
  match humidity with
  | none => { recommendations := ["⚠️ Нет данных о влажности воздуха"] }
  | some humidity =>
    if humidity < cfg.HUMIDITY_CRITICAL_LOW then
      { alerts := [⟨AlertLevel.critical, "humidity", humidity⟩],
        commands := [{ device_type := DeviceType.humidifier, action := DeviceStatus.on }],
        penalty := 25 }
    else if humidity > cfg.HUMIDITY_CRITICAL_HIGH then
      { alerts := [⟨AlertLevel.critical, "humidity", humidity⟩],
        commands := [{ device_type := DeviceType.dehumidifier, action := DeviceStatus.on },
                     { device_type := DeviceType.fan, action := DeviceStatus.on }],
        penalty := 30 }
    else if humidity < cfg.HUMIDITY_MIN then
      { alerts := [⟨AlertLevel.warning, "humidity", humidity⟩],
        commands := [{ device_type := DeviceType.humidifier, action := DeviceStatus.on }],
        penalty := 10 }
    else if humidity > cfg.HUMIDITY_MAX then
      { alerts := [⟨AlertLevel.warning, "humidity", humidity⟩],
        commands := [{ device_type := DeviceType.fan, action := DeviceStatus.on }],
        penalty := 8 }
    else
      { commands := [{ device_type := DeviceType.humidifier, action := DeviceStatus.off },
                     { device_type := DeviceType.dehumidifier, action := DeviceStatus.off }] }

/-- `GreenhouseController._analyze_soil_moisture`.  Returns the sub-result
together with the (possibly updated) `last_watering`; the Python method
mutates `self.last_watering` instead. -/
def analyze_soil_moisture (last_watering : Option ℚ) (cooldown_minutes now : ℚ)
    (moisture : Option ℚ) : SubResult × Option ℚ :=
  match moisture with
  | none => ({ recommendations := ["⚠️ Нет данных о влажности почвы"] }, last_watering)
  | some moisture =>
    let cw := can_water last_watering cooldown_minutes now
    if moisture < cfg.SOIL_MOISTURE_CRITICAL_LOW then
      if cw then
        ({ alerts := [⟨AlertLevel.critical, "soil_moisture", moisture⟩],
           commands := [{ device_type := DeviceType.pump, action := DeviceStatus.on,
                          duration := some 120 }],
           penalty := 35 }, some now)
      else
        ({ alerts := [⟨AlertLevel.critical, "soil_moisture", moisture⟩],
           penalty := 35 }, last_watering)
    else if moisture > cfg.SOIL_MOISTURE_CRITICAL_HIGH then
      ({ alerts := [⟨AlertLevel.critical, "soil_moisture", moisture⟩],
         commands := [{ device_type := DeviceType.pump, action := DeviceStatus.off }],
         recommendations := ["Прекратить полив, обеспечить дренаж"],
         penalty := 30 }, last_watering)
    else if moisture < cfg.SOIL_MOISTURE_MIN then
      if cw then
        ({ alerts := [⟨AlertLevel.warning, "soil_moisture", moisture⟩],
           commands := [{ device_type := DeviceType.pump, action := DeviceStatus.on,
                          duration := some 60 }],
           penalty := 10 }, some now)
      else
        ({ alerts := [⟨AlertLevel.warning, "soil_moisture", moisture⟩],
           penalty := 10 }, last_watering)
    else if moisture > cfg.SOIL_MOISTURE_MAX then
      ({ alerts := [⟨AlertLevel.info, "soil_moisture", moisture⟩],
         commands := [{ device_type := DeviceType.pump, action := DeviceStatus.off }] },
       last_watering)
    else
      ({ commands := [{ device_type := DeviceType.pump, action := DeviceStatus.off }] },
       last_watering)

/-- `GreenhouseController._analyze_light`. -/
def analyze_light (hour : ℕ) (light_level : Option ℚ) : SubResult :=
  match light_level with
  | none => { recommendations := ["⚠️ Нет данных об освещённости"] }
  | some light_level =>
    if is_daytime hour then
      if light_level < cfg.LIGHT_INTENSITY_MIN then
        { alerts := [⟨AlertLevel.warning, "light_level", light_level⟩],
          commands := [{ device_type := DeviceType.light, action := DeviceStatus.on }],
          recommendations := ["Включить дополнительное освещение"],
          penalty := 10 }
      else if light_level > cfg.LIGHT_INTENSITY_MAX then
        { alerts := [⟨AlertLevel.info, "light_level", light_level⟩],
          commands := [{ device_type := DeviceType.light, action := DeviceStatus.off }],
          recommendations := ["Достаточно естественного света"] }
      else
        { commands := [{ device_type := DeviceType.light, action := DeviceStatus.off }] }
    else
      { commands := [{ device_type := DeviceType.light, action := DeviceStatus.off }] }

/-- `GreenhouseController._analyze_ph`.  Note the `None` branch returns the
empty result without any recommendation. -/
def analyze_ph (ph : Option ℚ) : SubResult :=
  match ph with
  | none => {}
  | some ph =>
    if ph < cfg.PH_MIN then
      { alerts := [⟨AlertLevel.warning, "ph_level", ph⟩],
        recommendations := ["Добавить известь для повышения pH"],
        penalty := 15 }
    else if ph > cfg.PH_MAX then
      { alerts := [⟨AlertLevel.warning, "ph_level", ph⟩],
        recommendations := ["Добавить серу или торф для понижения pH"],
        penalty := 15 }
    else
      {}

/-- `GreenhouseController.analyze_readings`.  Returns the result dict and the
post-call controller state (only `last_watering` can change; pH commands are
never collected, matching the source). -/
def analyze_readings (st : ControllerState) (hour : ℕ) (now : ℚ) (readings : Reading) :
    AnalysisResult × ControllerState :=
  let temp_result := analyze_temperature hour readings.temperature
  let humidity_result := analyze_humidity readings.humidity
  let soil := analyze_soil_moisture st.last_watering st.watering_cooldown_minutes now
    readings.soil_moisture
  let light_result := analyze_light hour readings.light_level
  let ph_result := analyze_ph readings.ph_level
  let health_score : ℚ := 100 - temp_result.penalty - humidity_result.penalty
    - soil.1.penalty - light_result.penalty - ph_result.penalty
  ({ commands := temp_result.commands ++ humidity_result.commands ++ soil.1.commands
       ++ light_result.commands,
     alerts := temp_result.alerts ++ humidity_result.alerts ++ soil.1.alerts
       ++ light_result.alerts ++ ph_result.alerts,
     recommendations := temp_result.recommendations ++ humidity_result.recommendations
       ++ soil.1.recommendations ++ light_result.recommendations
       ++ ph_result.recommendations,
     health_score := max 0 (min 100 health_score),
     is_daytime := is_daytime hour,
     growth_stage := st.current_stage },
   { st with last_watering := soil.2 })

/-- A pump-ON command (the only commands the engine gates and the only ones
carrying a `duration`). -/
def isPumpOn (c : DeviceCommand) : Prop :=
  c.device_type = DeviceType.pump ∧ c.action = DeviceStatus.on

instance (c : DeviceCommand) : Decidable (isPumpOn c) := by
  unfold isPumpOn; infer_instance

/-! ### Helper lemmas shared by the claim theorems -/

theorem analyze_temperature_commands (hour : ℕ) (t : Option ℚ) :
    ∀ c ∈ (analyze_temperature hour t).commands,
      c.device_type ≠ DeviceType.pump ∧ c.duration = none := by
  intro c hc
  match t with
  | none => simp [analyze_temperature] at hc
  | some v =>
    simp only [analyze_temperature] at hc
    split_ifs at hc <;> simp only [List.mem_cons, List.mem_singleton,
      List.not_mem_nil, or_false] at hc <;>
      rcases hc with rfl | rfl <;> exact ⟨by simp, rfl⟩

theorem analyze_humidity_commands (h : Option ℚ) :
    ∀ c ∈ (analyze_humidity h).commands,
      c.device_type ≠ DeviceType.pump ∧ c.duration = none := by
  intro c hc
  match h with
  | none => simp [analyze_humidity] at hc
  | some v =>
    simp only [analyze_humidity] at hc
    split_ifs at hc <;> simp only [List.mem_cons, List.mem_singleton,
      List.not_mem_nil, or_false] at hc <;>
      rcases hc with rfl | rfl <;> exact ⟨by simp, rfl⟩

theorem analyze_light_commands (hour : ℕ) (l : Option ℚ) :
    ∀ c ∈ (analyze_light hour l).commands,
      c.device_type ≠ DeviceType.pump ∧ c.duration = none := by
  intro c hc
  match l with
  | none => simp [analyze_light] at hc
  | some v =>
    simp only [analyze_light] at hc
    split_ifs at hc <;> simp only [List.mem_cons, List.mem_singleton,
      List.not_mem_nil, or_false] at hc <;>
      rcases hc with rfl | rfl <;> exact ⟨by simp, rfl⟩

theorem analyze_ph_commands (p : Option ℚ) :
    (analyze_ph p).commands = [] := by
  match p with
  | none => rfl
  | some v =>
    simp only [analyze_ph]
    split_ifs <;> rfl

/-- Every command emitted by the soil analyzer is either a pump-ON carrying a
duration, or the plain pump-OFF command. -/
theorem analyze_soil_moisture_commands (lw : Option ℚ) (cd now : ℚ) (mo : Option ℚ) :
    ∀ c ∈ (analyze_soil_moisture lw cd now mo).1.commands,
      (isPumpOn c ∧ (c.duration = some 120 ∨ c.duration = some 60))
      ∨ c = { device_type := DeviceType.pump, action := DeviceStatus.off } := by
  intro c hc
  match mo with
  | none => simp [analyze_soil_moisture] at hc
  | some v =>
    simp only [analyze_soil_moisture] at hc
    split_ifs at hc <;> simp only [List.mem_cons, List.mem_singleton,
      List.not_mem_nil, or_false] at hc <;> first
      | exact absurd hc (List.not_mem_nil c)
      | (subst hc; simp [isPumpOn])

/-- The soil analyzer either leaves `last_watering` unchanged, or sets it to
`now` while emitting a pump-ON command. -/
theorem analyze_soil_moisture_snd (lw : Option ℚ) (cd now : ℚ) (mo : Option ℚ) :
    (analyze_soil_moisture lw cd now mo).2 = lw
    ∨ ((analyze_soil_moisture lw cd now mo).2 = some now
       ∧ ∃ c ∈ (analyze_soil_moisture lw cd now mo).1.commands, isPumpOn c) := by
  match mo with
  | none => exact Or.inl rfl
  | some v =>
    simp only [analyze_soil_moisture]
    split_ifs <;> first
      | exact Or.inl rfl
      | exact Or.inr ⟨rfl, ⟨_, List.mem_singleton.mpr rfl, by simp [isPumpOn]⟩⟩

/-- `health_score` as assembled by `analyze_readings`: clamped once, at the
end, over the plain sum of the five per-quantity penalties. -/
theorem health_score_eq (st : ControllerState) (hour : ℕ) (now : ℚ) (r : Reading) :
    (analyze_readings st hour now r).1.health_score
      = max 0 (min 100 (100 - (analyze_temperature hour r.temperature).penalty
          - (analyze_humidity r.humidity).penalty
          - (analyze_soil_moisture st.last_watering st.watering_cooldown_minutes now
              r.soil_moisture).1.penalty
          - (analyze_light hour r.light_level).penalty
          - (analyze_ph r.ph_level).penalty)) := rfl

/-! ### Claim theorems -/

/-- Claim C2: for every reading, the health score returned by
`analyze_readings` equals 100 minus the sum of the per-quantity penalties,
clamped into [0, 100] once at the end; it is never negative and never exceeds
100, and a simultaneous critical temperature (40), critical humidity (30) and
critical soil (35) reading — raw deduction 105 — reports score 0. -/
theorem c2_health_score_clamped (st : ControllerState) (hour : ℕ) (now : ℚ) (r : Reading) :
    (analyze_readings st hour now r).1.health_score
      = max 0 (min 100 (100 - (analyze_temperature hour r.temperature).penalty
          - (analyze_humidity r.humidity).penalty
          - (analyze_soil_moisture st.last_watering st.watering_cooldown_minutes now
              r.soil_moisture).1.penalty
          - (analyze_light hour r.light_level).penalty
          - (analyze_ph r.ph_level).penalty))
    ∧ 0 ≤ (analyze_readings st hour now r).1.health_score
    ∧ (analyze_readings st hour now r).1.health_score ≤ 100
    ∧ (analyze_readings {} 12 0
        { temperature := some 0, humidity := some 95, soil_moisture := some 30,
          light_level := some 300, ph_level := some 6 }).1.health_score = 0 := by
  refine ⟨health_score_eq st hour now r, ?_, ?_, ?_⟩
  · rw [health_score_eq]; exact le_max_left _ _
  · rw [health_score_eq]; exact max_le (by norm_num) (min_le_left _ _)
  · rw [health_score_eq]
    have ht : (analyze_temperature 12 (some 0)).penalty = 40 := by
      norm_num [analyze_temperature, cfg.TEMP_CRITICAL_LOW]
    have hh : (analyze_humidity (some 95)).penalty = 30 := by
      norm_num [analyze_humidity, cfg.HUMIDITY_CRITICAL_LOW, cfg.HUMIDITY_CRITICAL_HIGH]
    have hs : (analyze_soil_moisture none 30 0 (some 30)).1.penalty = 35 := by
      norm_num [analyze_soil_moisture, can_water, cfg.SOIL_MOISTURE_CRITICAL_LOW]
    have hl : (analyze_light 12 (some 300)).penalty = 0 := by
      norm_num [analyze_light, is_daytime, cfg.DAY_START_HOUR, cfg.DAY_END_HOUR,
        cfg.LIGHT_INTENSITY_MIN, cfg.LIGHT_INTENSITY_MAX]
    have hp : (analyze_ph (some 6)).penalty = 0 := by decide
    rw [ht, hh, hs, hl, hp]
    norm_num [max_def, min_def]

/-- Claim C3 counterexample: a reading with all fields absent yields four "no
data" recommendations, not five — the pH analyzer's missing-value branch
returns silently without adding one. -/
theorem c3_counterexample :
    (analyze_readings {} 12 0 {}).1.recommendations.length = 4
    ∧ (analyze_readings {} 12 0 {}).1.recommendations.length ≠ 5 := by
  exact ⟨rfl, by decide⟩

/-- Claim C3 (amended): a missing value yields zero penalty, no command and no
alert for every quantity, and an informational "no data" recommendation for
temperature, humidity, soil moisture and light — but not for pH, whose
missing-value branch contributes nothing at all; hence an all-absent reading
yields zero alerts, zero commands, health score 100 and exactly four "no data"
recommendations, with `is_daytime` still computed from the wall-clock hour. -/
theorem c3_missing_value_policy (st : ControllerState) (hour : ℕ) (now : ℚ) :
    analyze_temperature hour none
      = { recommendations := ["⚠️ Нет данных о температуре"] }
    ∧ analyze_humidity none
      = { recommendations := ["⚠️ Нет данных о влажности воздуха"] }
    ∧ analyze_soil_moisture st.last_watering st.watering_cooldown_minutes now none
      = ({ recommendations := ["⚠️ Нет данных о влажности почвы"] }, st.last_watering)
    ∧ analyze_light hour none
      = { recommendations := ["⚠️ Нет данных об освещённости"] }
    ∧ analyze_ph none = ({} : SubResult)
    ∧ (analyze_readings st hour now {}).1.alerts = []
    ∧ (analyze_readings st hour now {}).1.commands = []
    ∧ (analyze_readings st hour now {}).1.recommendations
      = ["⚠️ Нет данных о температуре", "⚠️ Нет данных о влажности воздуха",
         "⚠️ Нет данных о влажности почвы", "⚠️ Нет данных об освещённости"]
    ∧ (analyze_readings st hour now {}).1.health_score = 100
    ∧ (analyze_readings st hour now {}).1.is_daytime = is_daytime hour
    ∧ (analyze_readings st hour now {}).1.growth_stage = st.current_stage
    ∧ (analyze_readings st hour now {}).2 = st := by
  refine ⟨rfl, rfl, rfl, rfl, rfl, rfl, rfl, rfl, ?_, rfl, rfl, rfl⟩
  rw [health_score_eq]
  show max 0 (min 100 (100 - 0 - 0 - 0 - 0 - 0)) = 100
  norm_num

/-- Claim C7: the pH analyzer never emits a device command (and
`analyze_readings` never collects pH commands, so the commands of an
evaluation do not depend on the pH value at all); pH strictly below `PH_MIN`
yields exactly one WARNING alert, the lime recommendation and penalty 15; pH
strictly above `PH_MAX` yields exactly one WARNING alert, the sulfur
recommendation and penalty 15; pH within `[PH_MIN, PH_MAX]` yields no alert,
no recommendation and zero penalty. -/
theorem c7_ph_rule (st : ControllerState) (hour : ℕ) (now : ℚ) (r : Reading) (v : ℚ) :
    (analyze_ph (some v)).commands = []
    ∧ (analyze_readings st hour now r).1.commands
        = (analyze_readings st hour now { r with ph_level := none }).1.commands
    ∧ (v < cfg.PH_MIN →
        analyze_ph (some v)
          = { alerts := [⟨AlertLevel.warning, "ph_level", v⟩],
              recommendations := ["Добавить известь для повышения pH"],
              penalty := 15 })
    ∧ (v > cfg.PH_MAX →
        analyze_ph (some v)
          = { alerts := [⟨AlertLevel.warning, "ph_level", v⟩],
              recommendations := ["Добавить серу или торф для понижения pH"],
              penalty := 15 })
    ∧ (cfg.PH_MIN ≤ v → v ≤ cfg.PH_MAX → analyze_ph (some v) = ({} : SubResult)) := by
  have hminmax : cfg.PH_MIN ≤ cfg.PH_MAX := by decide
  refine ⟨analyze_ph_commands _, rfl, ?_, ?_, ?_⟩
  · intro h
    simp only [analyze_ph]
    rw [if_pos h]
  · intro h
    simp only [analyze_ph]
    rw [if_neg (not_lt.mpr (le_of_lt (lt_of_le_of_lt hminmax h))), if_pos h]
  · intro h1 h2
    simp only [analyze_ph]
    rw [if_neg (not_lt.mpr h1), if_neg (not_lt.mpr h2)]

/-- Witness for C7 at pH 5: strictly below `PH_MIN = 5.5`, so one WARNING
alert, the lime recommendation and penalty 15. -/
theorem c7_ph_rule_witness :
    analyze_ph (some 5)
      = { alerts := [⟨AlertLevel.warning, "ph_level", 5⟩],
          recommendations := ["Добавить известь для повышения pH"],
          penalty := 15 } :=
  (c7_ph_rule {} 12 0 {} 5).2.2.1 (by decide)

/-- Claim C6: `is_daytime` holds exactly when `DAY_START_HOUR (6) ≤ hour <
DAY_END_HOUR (22)`; whenever it is false the light rule emits exactly one
light-OFF command with no alert, no recommendation and no penalty regardless
of the light value, and the night temperature band is selected; during the
day the day band is selected. -/
theorem c6_night_light_suppression (hour : ℕ) (v : ℚ) :
    (is_daytime hour = true ↔ (cfg.DAY_START_HOUR ≤ hour ∧ hour < cfg.DAY_END_HOUR))
    ∧ (is_daytime hour = false →
        analyze_light hour (some v)
          = { commands := [{ device_type := DeviceType.light, action := DeviceStatus.off }] }
        ∧ get_target_temperature hour = (cfg.TEMP_NIGHT_MIN, cfg.TEMP_NIGHT_MAX))
    ∧ (is_daytime hour = true →
        get_target_temperature hour = (cfg.TEMP_DAY_MIN, cfg.TEMP_DAY_MAX)) := by
  refine ⟨by simp [is_daytime], ?_, ?_⟩
  · intro h
    exact ⟨by simp [analyze_light, h], by simp [get_target_temperature, h]⟩
  · intro h
    simp [get_target_temperature, h]

/-- Witness for C6: at hour 23 (outside the 6–22 window) a light level of 50
lux still yields only the light-OFF command and no insufficient-light alert,
and the night temperature band applies. -/
theorem c6_night_light_suppression_witness :
    analyze_light 23 (some 50)
      = { commands := [{ device_type := DeviceType.light, action := DeviceStatus.off }] }
    ∧ get_target_temperature 23 = (cfg.TEMP_NIGHT_MIN, cfg.TEMP_NIGHT_MAX) :=
  (c6_night_light_suppression 23 50).2.1 (by decide)

/-- Claim C8: `analyze_readings` is a total function — modelled as such — and
for every reading, including out-of-domain numeric values, it returns a
well-formed result (score clamped into [0, 100], day flag and growth stage
filled in); out-of-domain values go through the same tiered comparisons, e.g.
humidity −5 is handled by the ordinary critical-low branch and humidity 150
by the critical-high branch. -/
theorem c8_totality (st : ControllerState) (hour : ℕ) (now : ℚ) (r : Reading) :
    0 ≤ (analyze_readings st hour now r).1.health_score
    ∧ (analyze_readings st hour now r).1.health_score ≤ 100
    ∧ (analyze_readings st hour now r).1.is_daytime = is_daytime hour
    ∧ (analyze_readings st hour now r).1.growth_stage = st.current_stage
    ∧ analyze_humidity (some (-5))
      = { alerts := [⟨AlertLevel.critical, "humidity", -5⟩],
          commands := [{ device_type := DeviceType.humidifier, action := DeviceStatus.on }],
          penalty := 25 }
    ∧ analyze_humidity (some 150)
      = { alerts := [⟨AlertLevel.critical, "humidity", 150⟩],
          commands := [{ device_type := DeviceType.dehumidifier, action := DeviceStatus.on },
                       { device_type := DeviceType.fan, action := DeviceStatus.on }],
          penalty := 30 } := by
  refine ⟨?_, ?_, rfl, rfl, ?_, ?_⟩
  · rw [health_score_eq]; exact le_max_left _ _
  · rw [health_score_eq]; exact max_le (by norm_num) (min_le_left _ _)
  · norm_num [analyze_humidity, cfg.HUMIDITY_CRITICAL_LOW]
  · norm_num [analyze_humidity, cfg.HUMIDITY_CRITICAL_LOW, cfg.HUMIDITY_CRITICAL_HIGH]

/-- For a below-normal soil reading the pump-ON command is emitted exactly
when the cooldown gate allows, the tier alert and penalty are unaffected by
the gate, a blocked gate leaves `last_watering` unchanged, and an open gate
sets it to `now`. -/
theorem soil_pump_gate (lw : Option ℚ) (cd now m : ℚ) (hlow : m < cfg.SOIL_MOISTURE_MIN) :
    ((∃ c ∈ (analyze_soil_moisture lw cd now (some m)).1.commands, isPumpOn c)
      ↔ can_water lw cd now = true)
    ∧ (analyze_soil_moisture lw cd now (some m)).1.alerts
      = [⟨if m < cfg.SOIL_MOISTURE_CRITICAL_LOW then AlertLevel.critical else AlertLevel.warning,
          "soil_moisture", m⟩]
    ∧ (analyze_soil_moisture lw cd now (some m)).1.penalty
      = (if m < cfg.SOIL_MOISTURE_CRITICAL_LOW then (35:ℚ) else 10)
    ∧ (can_water lw cd now = false →
        (analyze_soil_moisture lw cd now (some m)).1.commands = []
        ∧ (analyze_soil_moisture lw cd now (some m)).2 = lw)
    ∧ (can_water lw cd now = true →
        (analyze_soil_moisture lw cd now (some m)).2 = some now) := by
  have h95 : ¬ m > cfg.SOIL_MOISTURE_CRITICAL_HIGH := by
    have h : cfg.SOIL_MOISTURE_MIN ≤ cfg.SOIL_MOISTURE_CRITICAL_HIGH := by decide
    exact not_lt.mpr (le_of_lt (lt_of_lt_of_le hlow h))
  by_cases h40 : m < cfg.SOIL_MOISTURE_CRITICAL_LOW <;>
    cases hcw : can_water lw cd now <;>
    simp [analyze_soil_moisture, h40, h95, hlow, hcw, isPumpOn]

/-- Claim C1: for a soil-moisture value in the critical-low or warning-low
tier, a pump-ON command is emitted by `analyze_readings` iff the cooldown
gate allows (no prior watering, or at least `watering_cooldown_minutes`
minutes elapsed); the tier alert and penalty appear either way; a blocked
gate emits no pump command and leaves `last_watering` unchanged; an open gate
sets `last_watering := now`; and for every reading the only state mutation is
this `last_watering` update — growth stage and the cooldown constant are
never changed. -/
theorem c1_watering_cooldown_gate (st : ControllerState) (hour : ℕ) (now : ℚ) (r : Reading)
    (m : ℚ) (hm : r.soil_moisture = some m) (hlow : m < cfg.SOIL_MOISTURE_MIN) :
    ((∃ c ∈ (analyze_readings st hour now r).1.commands, isPumpOn c)
      ↔ can_water st.last_watering st.watering_cooldown_minutes now = true)
    ∧ (⟨if m < cfg.SOIL_MOISTURE_CRITICAL_LOW then AlertLevel.critical else AlertLevel.warning,
        "soil_moisture", m⟩ : Alert) ∈ (analyze_readings st hour now r).1.alerts
    ∧ (analyze_soil_moisture st.last_watering st.watering_cooldown_minutes now
        (some m)).1.penalty
      = (if m < cfg.SOIL_MOISTURE_CRITICAL_LOW then (35:ℚ) else 10)
    ∧ (can_water st.last_watering st.watering_cooldown_minutes now = false →
        (∀ c ∈ (analyze_readings st hour now r).1.commands, ¬ isPumpOn c)
        ∧ (analyze_readings st hour now r).2.last_watering = st.last_watering)
    ∧ (can_water st.last_watering st.watering_cooldown_minutes now = true →
        (analyze_readings st hour now r).2.last_watering = some now)
    ∧ (∀ r2 : Reading,
        (analyze_readings st hour now r2).2.current_stage = st.current_stage
        ∧ (analyze_readings st hour now r2).2.watering_cooldown_minutes
            = st.watering_cooldown_minutes
        ∧ ((analyze_readings st hour now r2).2.last_watering = st.last_watering
           ∨ ((analyze_readings st hour now r2).2.last_watering = some now
              ∧ ∃ c ∈ (analyze_readings st hour now r2).1.commands, isPumpOn c))) := by
  obtain ⟨hiff, halerts, hpen, hblock, hopen⟩ :=
    soil_pump_gate st.last_watering st.watering_cooldown_minutes now m hlow
  have hcmds : (analyze_readings st hour now r).1.commands
      = (analyze_temperature hour r.temperature).commands
        ++ (analyze_humidity r.humidity).commands
        ++ (analyze_soil_moisture st.last_watering st.watering_cooldown_minutes now
             r.soil_moisture).1.commands
        ++ (analyze_light hour r.light_level).commands := rfl
  have hsoil_mem : ∀ c ∈ (analyze_readings st hour now r).1.commands, isPumpOn c →
      c ∈ (analyze_soil_moisture st.last_watering st.watering_cooldown_minutes now
            r.soil_moisture).1.commands := by
    intro c hc hp
    rw [hcmds] at hc
    simp only [List.mem_append] at hc
    rcases hc with ((ht | hh) | hs) | hl
    · exact absurd hp.1 (analyze_temperature_commands hour r.temperature c ht).1
    · exact absurd hp.1 (analyze_humidity_commands r.humidity c hh).1
    · exact hs
    · exact absurd hp.1 (analyze_light_commands hour r.light_level c hl).1
  have hlift : ∀ c ∈ (analyze_soil_moisture st.last_watering st.watering_cooldown_minutes now
        r.soil_moisture).1.commands, c ∈ (analyze_readings st hour now r).1.commands := by
    intro c hc
    rw [hcmds]
    exact List.mem_append_left _ (List.mem_append_right _ hc)
  have hlw : ∀ r2 : Reading, (analyze_readings st hour now r2).2.last_watering
      = (analyze_soil_moisture st.last_watering st.watering_cooldown_minutes now
          r2.soil_moisture).2 := fun _ => rfl
  rw [hm] at hsoil_mem hlift
  refine ⟨?_, ?_, hpen, ?_, ?_, ?_⟩
  · constructor
    · rintro ⟨c, hc, hp⟩
      exact hiff.mp ⟨c, hsoil_mem c hc hp, hp⟩
    · intro hcw
      obtain ⟨c, hc, hp⟩ := hiff.mpr hcw
      exact ⟨c, hlift c hc, hp⟩
  · have : (analyze_readings st hour now r).1.alerts
        = (analyze_temperature hour r.temperature).alerts
          ++ (analyze_humidity r.humidity).alerts
          ++ (analyze_soil_moisture st.last_watering st.watering_cooldown_minutes now
               r.soil_moisture).1.alerts
          ++ (analyze_light hour r.light_level).alerts
          ++ (analyze_ph r.ph_level).alerts := rfl
    rw [this, hm]
    simp [halerts]
  · intro hcw
    refine ⟨?_, ?_⟩
    · intro c hc hp
      exact absurd (hiff.mp ⟨c, hsoil_mem c hc hp, hp⟩) (by simp [hcw])
    · rw [hlw r, hm]
      exact (hblock hcw).2
  · intro hcw
    rw [hlw r, hm]
    exact hopen hcw
  · intro r2
    refine ⟨rfl, rfl, ?_⟩
    rcases analyze_soil_moisture_snd st.last_watering st.watering_cooldown_minutes now
        r2.soil_moisture with h | ⟨h1, c, hc, hp⟩
    · exact Or.inl (by rw [hlw r2, h])
    · refine Or.inr ⟨by rw [hlw r2, h1], c, ?_, hp⟩
      show c ∈ (analyze_readings st hour now r2).1.commands
      exact List.mem_append_left _ (List.mem_append_right _ hc)

/-- Witness for C1: with no prior watering recorded, a critical-low soil
reading (30%) at `now = 0` updates `last_watering` to `now`. -/
theorem c1_watering_cooldown_gate_witness :
    (analyze_readings {} 12 0 { soil_moisture := some 30 }).2.last_watering = some 0 :=
  (c1_watering_cooldown_gate {} 12 0 { soil_moisture := some 30 } 30 rfl
    (by decide)).2.2.2.2.1 rfl

/-- Claim C10: when the watering gate permits, a critical-low soil reading
emits a pump-ON command with duration 120 s and a warning-low reading a
pump-ON command with duration 60 s, both updating `last_watering := now`;
every other command `analyze_readings` ever emits carries no duration. -/
theorem c10_pump_durations (lw : Option ℚ) (cd now m : ℚ)
    (st : ControllerState) (hour : ℕ) (clock : ℚ) (r : Reading) :
    (m < cfg.SOIL_MOISTURE_CRITICAL_LOW → can_water lw cd now = true →
      analyze_soil_moisture lw cd now (some m)
        = ({ alerts := [⟨AlertLevel.critical, "soil_moisture", m⟩],
             commands := [{ device_type := DeviceType.pump, action := DeviceStatus.on,
                            duration := some 120 }],
             penalty := 35 }, some now))
    ∧ (cfg.SOIL_MOISTURE_CRITICAL_LOW ≤ m → m < cfg.SOIL_MOISTURE_MIN →
        can_water lw cd now = true →
      analyze_soil_moisture lw cd now (some m)
        = ({ alerts := [⟨AlertLevel.warning, "soil_moisture", m⟩],
             commands := [{ device_type := DeviceType.pump, action := DeviceStatus.on,
                            duration := some 60 }],
             penalty := 10 }, some now))
    ∧ (∀ c ∈ (analyze_readings st hour clock r).1.commands,
        ¬ isPumpOn c → c.duration = none) := by
  refine ⟨?_, ?_, ?_⟩
  · intro h40 hcw
    simp [analyze_soil_moisture, h40, hcw]
  · intro h40 h60 hcw
    have h95 : ¬ m > cfg.SOIL_MOISTURE_CRITICAL_HIGH := by
      have h : cfg.SOIL_MOISTURE_MIN ≤ cfg.SOIL_MOISTURE_CRITICAL_HIGH := by decide
      exact not_lt.mpr (le_of_lt (lt_of_lt_of_le h60 h))
    simp [analyze_soil_moisture, not_lt.mpr h40, h95, h60, hcw]
  · intro c hc hnp
    have hcmds : (analyze_readings st hour clock r).1.commands
        = (analyze_temperature hour r.temperature).commands
          ++ (analyze_humidity r.humidity).commands
          ++ (analyze_soil_moisture st.last_watering st.watering_cooldown_minutes clock
               r.soil_moisture).1.commands
          ++ (analyze_light hour r.light_level).commands := rfl
    rw [hcmds] at hc
    simp only [List.mem_append] at hc
    rcases hc with ((ht | hh) | hs) | hl
    · exact (analyze_temperature_commands hour r.temperature c ht).2
    · exact (analyze_humidity_commands r.humidity c hh).2
    · rcases analyze_soil_moisture_commands st.last_watering st.watering_cooldown_minutes
        clock r.soil_moisture c hs with ⟨hp, _⟩ | hoff
      · exact absurd hp hnp
      · rw [hoff]
    · exact (analyze_light_commands hour r.light_level c hl).2

/-- Witness for C10: no prior watering, critical-low soil at 30% — the pump
runs for 120 seconds and `last_watering` becomes `now = 0`. -/
theorem c10_pump_durations_witness :
    analyze_soil_moisture none 30 0 (some 30)
      = ({ alerts := [⟨AlertLevel.critical, "soil_moisture", 30⟩],
           commands := [{ device_type := DeviceType.pump, action := DeviceStatus.on,
                          duration := some 120 }],
           penalty := 35 }, some 0) :=
  (c10_pump_durations none 30 0 30 {} 12 0 {}).1 (by decide) rfl

/-- Claim C4 counterexample: soil moisture exactly at the upper critical
bound (95%) is classified into the informational moist-soil tier — an INFO
alert with zero penalty — not into a warning tier as the claim states. -/
theorem c4_counterexample :
    (analyze_soil_moisture none 30 0 (some 95)).1
      = { alerts := [⟨AlertLevel.info, "soil_moisture", 95⟩],
          commands := [{ device_type := DeviceType.pump, action := DeviceStatus.off }] }
    ∧ AlertLevel.info ≠ AlertLevel.warning := by
  exact ⟨by decide, by decide⟩

/-- Claim C4 (amended): normal-band edges are inclusive (a value exactly at a
normal bound yields no alert, no penalty and the quantity's OFF commands) and
critical classification is strict (a critical alert appears exactly for
values strictly beyond a critical bound); a value exactly at a critical bound
falls into the next milder tier, which is the warning tier everywhere except
soil moisture's upper bound (95%), where it is the informational moist-soil
tier with zero penalty. -/
theorem c4_boundary_semantics (hour : ℕ) (v : ℚ) (lw : Option ℚ) (cd now : ℚ) :
    (is_daytime hour = true →
      analyze_temperature hour (some cfg.TEMP_DAY_MIN)
        = { commands := [{ device_type := DeviceType.heater, action := DeviceStatus.off },
                         { device_type := DeviceType.cooler, action := DeviceStatus.off }] }
      ∧ analyze_temperature hour (some cfg.TEMP_DAY_MAX)
        = { commands := [{ device_type := DeviceType.heater, action := DeviceStatus.off },
                         { device_type := DeviceType.cooler, action := DeviceStatus.off }] })
    ∧ (is_daytime hour = false →
      analyze_temperature hour (some cfg.TEMP_NIGHT_MIN)
        = { commands := [{ device_type := DeviceType.heater, action := DeviceStatus.off },
                         { device_type := DeviceType.cooler, action := DeviceStatus.off }] }
      ∧ analyze_temperature hour (some cfg.TEMP_NIGHT_MAX)
        = { commands := [{ device_type := DeviceType.heater, action := DeviceStatus.off },
                         { device_type := DeviceType.cooler, action := DeviceStatus.off }] })
    ∧ analyze_humidity (some cfg.HUMIDITY_MIN)
      = { commands := [{ device_type := DeviceType.humidifier, action := DeviceStatus.off },
                       { device_type := DeviceType.dehumidifier, action := DeviceStatus.off }] }
    ∧ analyze_humidity (some cfg.HUMIDITY_MAX)
      = { commands := [{ device_type := DeviceType.humidifier, action := DeviceStatus.off },
                       { device_type := DeviceType.dehumidifier, action := DeviceStatus.off }] }
    ∧ analyze_soil_moisture lw cd now (some cfg.SOIL_MOISTURE_MIN)
      = ({ commands := [{ device_type := DeviceType.pump, action := DeviceStatus.off }] }, lw)
    ∧ analyze_soil_moisture lw cd now (some cfg.SOIL_MOISTURE_MAX)
      = ({ commands := [{ device_type := DeviceType.pump, action := DeviceStatus.off }] }, lw)
    ∧ (is_daytime hour = true →
      analyze_light hour (some cfg.LIGHT_INTENSITY_MIN)
        = { commands := [{ device_type := DeviceType.light, action := DeviceStatus.off }] }
      ∧ analyze_light hour (some cfg.LIGHT_INTENSITY_MAX)
        = { commands := [{ device_type := DeviceType.light, action := DeviceStatus.off }] })
    ∧ analyze_ph (some cfg.PH_MIN) = ({} : SubResult)
    ∧ analyze_ph (some cfg.PH_MAX) = ({} : SubResult)
    ∧ ((∃ a ∈ (analyze_temperature hour (some v)).alerts, a.level = AlertLevel.critical)
        ↔ (v < cfg.TEMP_CRITICAL_LOW ∨ v > cfg.TEMP_CRITICAL_HIGH))
    ∧ ((∃ a ∈ (analyze_humidity (some v)).alerts, a.level = AlertLevel.critical)
        ↔ (v < cfg.HUMIDITY_CRITICAL_LOW ∨ v > cfg.HUMIDITY_CRITICAL_HIGH))
    ∧ ((∃ a ∈ (analyze_soil_moisture lw cd now (some v)).1.alerts,
          a.level = AlertLevel.critical)
        ↔ (v < cfg.SOIL_MOISTURE_CRITICAL_LOW ∨ v > cfg.SOIL_MOISTURE_CRITICAL_HIGH))
    ∧ (analyze_temperature hour (some cfg.TEMP_CRITICAL_LOW)).alerts
        = [⟨AlertLevel.warning, "temperature", cfg.TEMP_CRITICAL_LOW⟩]
    ∧ (analyze_temperature hour (some cfg.TEMP_CRITICAL_HIGH)).alerts
        = [⟨AlertLevel.warning, "temperature", cfg.TEMP_CRITICAL_HIGH⟩]
    ∧ (analyze_humidity (some cfg.HUMIDITY_CRITICAL_LOW)).alerts
        = [⟨AlertLevel.warning, "humidity", cfg.HUMIDITY_CRITICAL_LOW⟩]
    ∧ (analyze_humidity (some cfg.HUMIDITY_CRITICAL_HIGH)).alerts
        = [⟨AlertLevel.warning, "humidity", cfg.HUMIDITY_CRITICAL_HIGH⟩]
    ∧ (analyze_soil_moisture lw cd now (some cfg.SOIL_MOISTURE_CRITICAL_LOW)).1.alerts
        = [⟨AlertLevel.warning, "soil_moisture", cfg.SOIL_MOISTURE_CRITICAL_LOW⟩]
    ∧ (analyze_soil_moisture lw cd now (some cfg.SOIL_MOISTURE_CRITICAL_HIGH)).1
        = { alerts := [⟨AlertLevel.info, "soil_moisture", cfg.SOIL_MOISTURE_CRITICAL_HIGH⟩],
            commands := [{ device_type := DeviceType.pump, action := DeviceStatus.off }] } := by
  refine ⟨?_, ?_, by decide, by decide, ?_, ?_, ?_, by decide, by decide,
    ?_, ?_, ?_, ?_, ?_, by decide, by decide, ?_, ?_⟩
  · intro hd
    constructor <;>
      norm_num [analyze_temperature, get_target_temperature, hd, cfg.TEMP_DAY_MIN,
        cfg.TEMP_DAY_MAX, cfg.TEMP_CRITICAL_LOW, cfg.TEMP_CRITICAL_HIGH]
  · intro hd
    constructor <;>
      norm_num [analyze_temperature, get_target_temperature, hd, cfg.TEMP_NIGHT_MIN,
        cfg.TEMP_NIGHT_MAX, cfg.TEMP_CRITICAL_LOW, cfg.TEMP_CRITICAL_HIGH]
  · norm_num [analyze_soil_moisture, cfg.SOIL_MOISTURE_MIN, cfg.SOIL_MOISTURE_MAX,
      cfg.SOIL_MOISTURE_CRITICAL_LOW, cfg.SOIL_MOISTURE_CRITICAL_HIGH]
  · norm_num [analyze_soil_moisture, cfg.SOIL_MOISTURE_MIN, cfg.SOIL_MOISTURE_MAX,
      cfg.SOIL_MOISTURE_CRITICAL_LOW, cfg.SOIL_MOISTURE_CRITICAL_HIGH]
  · intro hd
    constructor <;>
      norm_num [analyze_light, hd, cfg.LIGHT_INTENSITY_MIN, cfg.LIGHT_INTENSITY_MAX]
  · simp only [analyze_temperature]
    split_ifs <;> simp_all
  · simp only [analyze_humidity]
    split_ifs <;> simp_all
  · simp only [analyze_soil_moisture]
    split_ifs with h1 h2 h3 h4 h5 <;> simp_all
  · cases hd : is_daytime hour <;>
      norm_num [analyze_temperature, get_target_temperature, hd, cfg.TEMP_CRITICAL_LOW,
        cfg.TEMP_CRITICAL_HIGH, cfg.TEMP_DAY_MIN, cfg.TEMP_DAY_MAX, cfg.TEMP_NIGHT_MIN,
        cfg.TEMP_NIGHT_MAX]
  · cases hd : is_daytime hour <;>
      norm_num [analyze_temperature, get_target_temperature, hd, cfg.TEMP_CRITICAL_LOW,
        cfg.TEMP_CRITICAL_HIGH, cfg.TEMP_DAY_MIN, cfg.TEMP_DAY_MAX, cfg.TEMP_NIGHT_MIN,
        cfg.TEMP_NIGHT_MAX]
  · norm_num [analyze_soil_moisture, cfg.SOIL_MOISTURE_MIN, cfg.SOIL_MOISTURE_MAX,
      cfg.SOIL_MOISTURE_CRITICAL_LOW, cfg.SOIL_MOISTURE_CRITICAL_HIGH]
    split_ifs <;> norm_num
  · norm_num [analyze_soil_moisture, cfg.SOIL_MOISTURE_MIN, cfg.SOIL_MOISTURE_MAX,
      cfg.SOIL_MOISTURE_CRITICAL_LOW, cfg.SOIL_MOISTURE_CRITICAL_HIGH]

/-- Witness for C4 at noon: the day window is active and the day-band lower
edge (18 °C) is classified normal with heater/cooler OFF. -/
theorem c4_boundary_semantics_witness :
    analyze_temperature 12 (some cfg.TEMP_DAY_MIN)
      = { commands := [{ device_type := DeviceType.heater, action := DeviceStatus.off },
                       { device_type := DeviceType.cooler, action := DeviceStatus.off }] } :=
  ((c4_boundary_semantics 12 0 none 30 0).1 (by decide)).1

/-- Claim C5 counterexample: humidity 50% is beyond the normal bound but
within the critical bounds, yet its WARNING result carries no textual
recommendation; and soil moisture 85% — also beyond normal but within
critical — yields an INFO alert with zero penalty, not a WARNING one. -/
theorem c5_counterexample :
    analyze_humidity (some 50)
      = { alerts := [⟨AlertLevel.warning, "humidity", 50⟩],
          commands := [{ device_type := DeviceType.humidifier, action := DeviceStatus.on }],
          recommendations := [], penalty := 10 }
    ∧ (analyze_soil_moisture none 30 0 (some 85)).1
      = { alerts := [⟨AlertLevel.info, "soil_moisture", 85⟩],
          commands := [{ device_type := DeviceType.pump, action := DeviceStatus.off }],
          recommendations := [], penalty := 0 } := by
  exact ⟨by decide, by decide⟩

/-- Claim C5 (amended): a value beyond the normal bound but within the
critical bounds yields a WARNING alert with penalty 8–15 and a gentler
corrective command, but a textual recommendation only for temperature and
daytime-light warnings (humidity and soil warnings carry none); the soil
warning command is additionally gated by the watering cooldown; and on the
high side soil moisture within (80, 95] and daytime light above 600 lux give
INFO alerts with zero penalty instead of warnings. -/
theorem c5_warning_tier (hour : ℕ) (v : ℚ) (lw : Option ℚ) (cd now : ℚ) :
    (cfg.TEMP_CRITICAL_LOW ≤ v → v < (get_target_temperature hour).1 →
      analyze_temperature hour (some v)
        = { alerts := [⟨AlertLevel.warning, "temperature", v⟩],
            commands := [{ device_type := DeviceType.heater, action := DeviceStatus.on }],
            recommendations := ["Включить обогрев до достижения "
              ++ toString (get_target_temperature hour).1 ++ "°C"],
            penalty := 15 })
    ∧ ((get_target_temperature hour).2 < v → v ≤ cfg.TEMP_CRITICAL_HIGH →
      analyze_temperature hour (some v)
        = { alerts := [⟨AlertLevel.warning, "temperature", v⟩],
            commands := [{ device_type := DeviceType.fan, action := DeviceStatus.on }],
            recommendations := ["Включить вентиляцию для охлаждения"],
            penalty := 10 })
    ∧ (cfg.HUMIDITY_CRITICAL_LOW ≤ v → v < cfg.HUMIDITY_MIN →
      analyze_humidity (some v)
        = { alerts := [⟨AlertLevel.warning, "humidity", v⟩],
            commands := [{ device_type := DeviceType.humidifier, action := DeviceStatus.on }],
            penalty := 10 })
    ∧ (cfg.HUMIDITY_MAX < v → v ≤ cfg.HUMIDITY_CRITICAL_HIGH →
      analyze_humidity (some v)
        = { alerts := [⟨AlertLevel.warning, "humidity", v⟩],
            commands := [{ device_type := DeviceType.fan, action := DeviceStatus.on }],
            penalty := 8 })
    ∧ (cfg.SOIL_MOISTURE_CRITICAL_LOW ≤ v → v < cfg.SOIL_MOISTURE_MIN →
      analyze_soil_moisture lw cd now (some v)
        = (if can_water lw cd now then
            ({ alerts := [⟨AlertLevel.warning, "soil_moisture", v⟩],
               commands := [{ device_type := DeviceType.pump, action := DeviceStatus.on,
                              duration := some 60 }],
               penalty := 10 }, some now)
           else
            ({ alerts := [⟨AlertLevel.warning, "soil_moisture", v⟩],
               penalty := 10 }, lw)))
    ∧ (cfg.SOIL_MOISTURE_MAX < v → v ≤ cfg.SOIL_MOISTURE_CRITICAL_HIGH →
      analyze_soil_moisture lw cd now (some v)
        = ({ alerts := [⟨AlertLevel.info, "soil_moisture", v⟩],
             commands := [{ device_type := DeviceType.pump, action := DeviceStatus.off }] },
           lw))
    ∧ (is_daytime hour = true → v < cfg.LIGHT_INTENSITY_MIN →
      analyze_light hour (some v)
        = { alerts := [⟨AlertLevel.warning, "light_level", v⟩],
            commands := [{ device_type := DeviceType.light, action := DeviceStatus.on }],
            recommendations := ["Включить дополнительное освещение"],
            penalty := 10 })
    ∧ (is_daytime hour = true → cfg.LIGHT_INTENSITY_MAX < v →
      analyze_light hour (some v)
        = { alerts := [⟨AlertLevel.info, "light_level", v⟩],
            commands := [{ device_type := DeviceType.light, action := DeviceStatus.off }],
            recommendations := ["Достаточно естественного света"] }) := by
  have htm : (get_target_temperature hour).1 ≤ cfg.TEMP_CRITICAL_HIGH := by
    cases hd : is_daytime hour <;> simp [get_target_temperature, hd] <;> decide
  have htm2 : cfg.TEMP_CRITICAL_LOW ≤ (get_target_temperature hour).2 := by
    cases hd : is_daytime hour <;> simp [get_target_temperature, hd] <;> decide
  have htmm : (get_target_temperature hour).1 ≤ (get_target_temperature hour).2 := by
    cases hd : is_daytime hour <;> simp [get_target_temperature, hd] <;> decide
  refine ⟨?_, ?_, ?_, ?_, ?_, ?_, ?_, ?_⟩
  · intro h1 h2
    simp only [analyze_temperature]
    rw [if_neg (not_lt.mpr h1),
      if_neg (not_lt.mpr (le_of_lt (lt_of_lt_of_le h2 htm))), if_pos h2]
  · intro h1 h2
    simp only [analyze_temperature]
    rw [if_neg (not_lt.mpr (le_of_lt (lt_of_le_of_lt htm2 h1))),
      if_neg (not_lt.mpr h2), if_neg (not_lt.mpr (le_of_lt (lt_of_le_of_lt htmm h1))),
      if_pos h1]
  · intro h1 h2
    have hle : cfg.HUMIDITY_MIN ≤ cfg.HUMIDITY_CRITICAL_HIGH := by decide
    simp only [analyze_humidity]
    rw [if_neg (not_lt.mpr h1),
      if_neg (not_lt.mpr (le_of_lt (lt_of_lt_of_le h2 hle))), if_pos h2]
  · intro h1 h2
    have hle : cfg.HUMIDITY_CRITICAL_LOW ≤ cfg.HUMIDITY_MAX := by decide
    have hle2 : cfg.HUMIDITY_MIN ≤ cfg.HUMIDITY_MAX := by decide
    simp only [analyze_humidity]
    rw [if_neg (not_lt.mpr (le_of_lt (lt_of_le_of_lt hle h1))), if_neg (not_lt.mpr h2),
      if_neg (not_lt.mpr (le_of_lt (lt_of_le_of_lt hle2 h1))), if_pos h1]
  · intro h1 h2
    have hle : cfg.SOIL_MOISTURE_MIN ≤ cfg.SOIL_MOISTURE_CRITICAL_HIGH := by decide
    simp only [analyze_soil_moisture]
    rw [if_neg (not_lt.mpr h1),
      if_neg (not_lt.mpr (le_of_lt (lt_of_lt_of_le h2 hle))), if_pos h2]
  · intro h1 h2
    have hle : cfg.SOIL_MOISTURE_CRITICAL_LOW ≤ cfg.SOIL_MOISTURE_MAX := by decide
    have hle2 : cfg.SOIL_MOISTURE_MIN ≤ cfg.SOIL_MOISTURE_MAX := by decide
    simp only [analyze_soil_moisture]
    rw [if_neg (not_lt.mpr (le_of_lt (lt_of_le_of_lt hle h1))), if_neg (not_lt.mpr h2),
      if_neg (not_lt.mpr (le_of_lt (lt_of_le_of_lt hle2 h1))), if_pos h1]
  · intro hd h
    simp only [analyze_light, hd]
    rw [if_pos trivial, if_pos h]
  · intro hd h
    have hle : cfg.LIGHT_INTENSITY_MIN ≤ cfg.LIGHT_INTENSITY_MAX := by decide
    simp only [analyze_light, hd]
    rw [if_pos trivial, if_neg (not_lt.mpr (le_of_lt (lt_of_le_of_lt hle h))), if_pos h]

/-- Witness for C5 at humidity 50%: a warning-tier value with WARNING alert,
humidifier-ON command, penalty 10, and no recommendation. -/
theorem c5_warning_tier_witness :
    analyze_humidity (some 50)
      = { alerts := [⟨AlertLevel.warning, "humidity", 50⟩],
          commands := [{ device_type := DeviceType.humidifier, action := DeviceStatus.on }],
          penalty := 10 } :=
  (c5_warning_tier 12 50 none 30 0).2.2.1 (by decide) (by decide)

/-- Claim C9 counterexample: evaluating the same critical-low soil reading
twice in succession at the same clock time does NOT yield identical results —
the first call waters (pump-ON, `last_watering := now`), so the second call's
cooldown gate blocks and its command list is empty. -/
theorem c9_counterexample :
    (analyze_readings {} 12 0 { soil_moisture := some 30 }).1.commands
      = [{ device_type := DeviceType.pump, action := DeviceStatus.on, duration := some 120 }]
    ∧ (analyze_readings (analyze_readings {} 12 0 { soil_moisture := some 30 }).2 12 0
        { soil_moisture := some 30 }).1.commands = []
    ∧ (analyze_readings (analyze_readings {} 12 0 { soil_moisture := some 30 }).2 12 0
        { soil_moisture := some 30 }).1
      ≠ (analyze_readings {} 12 0 { soil_moisture := some 30 }).1 := by
  have hcw : can_water (some 0) 30 0 = false := by
    simp only [can_water, decide_eq_false_iff_not]
    norm_num
  have hst : (analyze_readings {} 12 0 { soil_moisture := some 30 }).2
      = { last_watering := some 0 } := by
    norm_num [analyze_readings, analyze_soil_moisture, can_water,
      cfg.SOIL_MOISTURE_CRITICAL_LOW]
  have h1 : (analyze_readings {} 12 0 { soil_moisture := some 30 }).1.commands
      = [{ device_type := DeviceType.pump, action := DeviceStatus.on,
           duration := some 120 }] := by
    norm_num [analyze_readings, analyze_temperature, analyze_humidity, analyze_light,
      analyze_ph, analyze_soil_moisture, can_water, cfg.SOIL_MOISTURE_CRITICAL_LOW]
  have h2 : (analyze_readings (analyze_readings {} 12 0 { soil_moisture := some 30 }).2 12 0
      { soil_moisture := some 30 }).1.commands = [] := by
    rw [hst]
    norm_num [analyze_readings, analyze_temperature, analyze_humidity, analyze_light,
      analyze_ph, analyze_soil_moisture, hcw, cfg.SOIL_MOISTURE_CRITICAL_LOW,
      cfg.SOIL_MOISTURE_CRITICAL_HIGH, cfg.SOIL_MOISTURE_MIN, cfg.SOIL_MOISTURE_MAX]
  refine ⟨h1, h2, ?_⟩
  intro heq
  have hc := congrArg AnalysisResult.commands heq
  rw [h1, h2] at hc
  exact List.cons_ne_nil _ _ hc.symm

/-- Claim C9 (amended): re-evaluating the same reading from the post-state
at the same clock time yields the identical result whenever the first
evaluation emitted no pump-ON command — the only case in which evaluation
changes the session state. -/
theorem c9_reeval_stable (st : ControllerState) (hour : ℕ) (now : ℚ) (r : Reading)
    (h : ∀ c ∈ (analyze_readings st hour now r).1.commands, ¬ isPumpOn c) :
    analyze_readings (analyze_readings st hour now r).2 hour now r
      = analyze_readings st hour now r := by
  have hst : (analyze_readings st hour now r).2 = st := by
    rcases analyze_soil_moisture_snd st.last_watering st.watering_cooldown_minutes now
        r.soil_moisture with hl | ⟨_, c, hc, hp⟩
    · show ({ st with last_watering :=
        (analyze_soil_moisture st.last_watering st.watering_cooldown_minutes now
          r.soil_moisture).2 } : ControllerState) = st
      rw [hl]
    · exfalso
      refine h c ?_ hp
      show c ∈ (analyze_temperature hour r.temperature).commands
        ++ (analyze_humidity r.humidity).commands
        ++ (analyze_soil_moisture st.last_watering st.watering_cooldown_minutes now
             r.soil_moisture).1.commands
        ++ (analyze_light hour r.light_level).commands
      exact List.mem_append_left _ (List.mem_append_right _ hc)
  rw [hst]

/-- Witness for C9: an all-absent reading emits no pump command, so the
immediate re-evaluation returns the identical result. -/
theorem c9_reeval_stable_witness :
    analyze_readings (analyze_readings {} 12 0 {}).2 12 0 {}
      = analyze_readings {} 12 0 {} :=
  c9_reeval_stable {} 12 0 {} (by decide)

end Greenhouse
